import Mathlib

/-!
Shallow embedding of the gosepp SEPP signaling client (package `gosepp`):
the wire message vocabulary (`sepp_messages.go`), the transport's
connect / send / reader-loop logic (`gosepp.go`), and the call
coordinator (`call.go`).  Go strings are Lean `String`, Go `int` is `Int`,
Go pointer fields (`*bool`, `*int`, `*string`) are `Option`, Go slices are
`List`.  Channels are modelled by explicit event lists / queues, and each
blocking `select` by an input naming which of its cases fired.
-/

namespace Gosepp

/-- A parsed JSON document, the shape `encoding/json` works on.  `num`
carries an `Int`: the frames relevant here use only integral numbers. -/
inductive JsonVal where
| null : JsonVal
| bool (b : Bool) : JsonVal
| num (n : Int) : JsonVal
| str (s : String) : JsonVal
| arr (elems : List JsonVal) : JsonVal
| obj (fields : List (String × JsonVal)) : JsonVal

/-- MsgBase, the envelope embedded in every wire message
(`sepp_messages.go`).  Go field `Type` is `type_` and `From` is `from_`
(reserved words in Lean). -/
structure MsgBase where
  type_ : String
  MsgID : String
  From : String
  To : String
deriving Repr, DecidableEq

/-- Zero value of MsgBase (all Go string fields empty). -/
def MsgBase.zero : MsgBase := ⟨"", "", "", ""⟩

/-- Sdp combines the actual sdp with a type ("offer" or "answer").
Go field `Sdp.Sdp` is `sdp` here (a field may not shadow its own
structure name in Lean); likewise every Go field `Sdp Sdp` below. -/
structure Sdp where
  SdpType : String
  sdp : String
deriving Repr, DecidableEq

def Sdp.zero : Sdp := ⟨"", ""⟩

/-- MsgCallStartData carries data for the call_start message.  The
`Sdp` and `DisplayName` fields are from `sepp_messages.go`; the
`Platform` field is the one `Start` (`call.go`) assigns from
`c.platform`; its struct declaration is not under src/, so the field
itself is Modelled from the spec: the call_start payload carries a
platform tag. -/
structure MsgCallStartData where
  sdp : Sdp
  DisplayName : String
  Platform : String
deriving Repr, DecidableEq

def MsgCallStartData.zero : MsgCallStartData := ⟨Sdp.zero, "", ""⟩

/-- MsgCallRejectedData. -/
structure MsgCallRejectedData where
  RejectCode : Int
deriving Repr, DecidableEq

def MsgCallRejectedData.zero : MsgCallRejectedData := ⟨0⟩

/-- MsgCallAcceptedData. -/
structure MsgCallAcceptedData where
  CallID : String
  sdp : Sdp
deriving Repr, DecidableEq

def MsgCallAcceptedData.zero : MsgCallAcceptedData := ⟨"", Sdp.zero⟩

/-- MsgSdpUpdateData. -/
structure MsgSdpUpdateData where
  CallID : String
  sdp : Sdp
deriving Repr, DecidableEq

def MsgSdpUpdateData.zero : MsgSdpUpdateData := ⟨"", Sdp.zero⟩

/-- MsgCallTerminateData. -/
structure MsgCallTerminateData where
  CallID : String
  TermCode : Int
deriving Repr, DecidableEq

def MsgCallTerminateData.zero : MsgCallTerminateData := ⟨"", 0⟩

/-- MsgCallTerminatedData. -/
structure MsgCallTerminatedData where
  CallID : String
  TermCode : Int
deriving Repr, DecidableEq

def MsgCallTerminatedData.zero : MsgCallTerminatedData := ⟨"", 0⟩

/-- MsgCallResumeData. -/
structure MsgCallResumeData where
  sdp : Sdp
  CallID : String
deriving Repr, DecidableEq

def MsgCallResumeData.zero : MsgCallResumeData := ⟨Sdp.zero, ""⟩

/-- MsgCallResumedData. -/
structure MsgCallResumedData where
  CallID : String
  sdp : Sdp
deriving Repr, DecidableEq

def MsgCallResumedData.zero : MsgCallResumedData := ⟨"", Sdp.zero⟩

/-- MsgChatData. -/
structure MsgChatData where
  CallID : String
  ClientID : String
  Content : String
  ID : String
  Timestamp : String
deriving Repr, DecidableEq

def MsgChatData.zero : MsgChatData := ⟨"", "", "", "", ""⟩

/-- MsgSetPresenterData. -/
structure MsgSetPresenterData where
  CallID : String
  On : Bool
  ClientID : String
deriving Repr, DecidableEq

def MsgSetPresenterData.zero : MsgSetPresenterData := ⟨"", false, ""⟩

/-- MsgDesktopstreamingData. -/
structure MsgDesktopstreamingData where
  CallID : String
  On : Bool
  ClientID : String
deriving Repr, DecidableEq

def MsgDesktopstreamingData.zero : MsgDesktopstreamingData := ⟨"", false, ""⟩

/-- MsgMuteVideoData. -/
structure MsgMuteVideoData where
  CallID : String
  On : Bool
  ClientID : String
deriving Repr, DecidableEq

def MsgMuteVideoData.zero : MsgMuteVideoData := ⟨"", false, ""⟩

/-- Dimension specifying position on podium. -/
structure Dimension where
  Width : Int
  Height : Int
  X : Int
  Y : Int
deriving Repr, DecidableEq

def Dimension.zero : Dimension := ⟨0, 0, 0, 0⟩

/-- MsgSourceUpdateData holds data for the podium configuration. -/
structure MsgSourceUpdateData where
  CallID : String
  AudioSources : List Int
  VideoSources : List Int
  Broadcast : Option Bool
  Dimensions : List Dimension
  Layout : Int
  Sources : List String
  TextOverlay : Option Bool
  PresenterSrc : Option Int
  DesktopstreamerSrc : Option Int
deriving Repr, DecidableEq

def MsgSourceUpdateData.zero : MsgSourceUpdateData :=
  ⟨"", [], [], none, [], 0, [], none, none, none⟩

/-- MsgRecordingData. -/
structure MsgRecordingData where
  CallID : String
  Active : Bool
  Enabled : Bool
deriving Repr, DecidableEq

def MsgRecordingData.zero : MsgRecordingData := ⟨"", false, false⟩

/-- Member participant on memberlist. -/
structure Member where
  ClientID : String
  Platform : Option String
deriving Repr, DecidableEq

def Member.zero : Member := ⟨"", none⟩

/-- Media on memberlist. -/
structure Media where
  MediaID : String
  PlayID : String
deriving Repr, DecidableEq

def Media.zero : Media := ⟨"", ""⟩

/-- MsgMemberlistData. -/
structure MsgMemberlistData where
  CallID : String
  Count : Int
  Add : List Member
  Del : List String
  Media : List Media
deriving Repr, DecidableEq

def MsgMemberlistData.zero : MsgMemberlistData := ⟨"", 0, [], [], []⟩

/-- The closed vocabulary of typed messages (`MsgInterface` values),
one constructor per entry of `SeppMsgTypes`; each carries its embedded
`MsgBase` and its `Data`. -/
inductive Msg where
| callStart (base : MsgBase) (data : MsgCallStartData) : Msg
| callRejected (base : MsgBase) (data : MsgCallRejectedData) : Msg
| callAccepted (base : MsgBase) (data : MsgCallAcceptedData) : Msg
| sdpUpdate (base : MsgBase) (data : MsgSdpUpdateData) : Msg
| callTerminate (base : MsgBase) (data : MsgCallTerminateData) : Msg
| callTerminated (base : MsgBase) (data : MsgCallTerminatedData) : Msg
| callResume (base : MsgBase) (data : MsgCallResumeData) : Msg
| callResumed (base : MsgBase) (data : MsgCallResumedData) : Msg
| chat (base : MsgBase) (data : MsgChatData) : Msg
| setPresenter (base : MsgBase) (data : MsgSetPresenterData) : Msg
| desktopstreaming (base : MsgBase) (data : MsgDesktopstreamingData) : Msg
| muteVideo (base : MsgBase) (data : MsgMuteVideoData) : Msg
| sourceUpdate (base : MsgBase) (data : MsgSourceUpdateData) : Msg
| memberlist (base : MsgBase) (data : MsgMemberlistData) : Msg
| recording (base : MsgBase) (data : MsgRecordingData) : Msg
deriving Repr, DecidableEq

/-- The embedded MsgBase of a typed message. -/
def Msg.base : Msg → MsgBase
| .callStart b _ => b
| .callRejected b _ => b
| .callAccepted b _ => b
| .sdpUpdate b _ => b
| .callTerminate b _ => b
| .callTerminated b _ => b
| .callResume b _ => b
| .callResumed b _ => b
| .chat b _ => b
| .setPresenter b _ => b
| .desktopstreaming b _ => b
| .muteVideo b _ => b
| .sourceUpdate b _ => b
| .memberlist b _ => b
| .recording b _ => b

/-- GetType of `MsgBase` lifted to the typed message (the decoded
`Type` field of the envelope). -/
def Msg.GetType (m : Msg) : String := m.base.type_

/-- GetMsgID. -/
def Msg.GetMsgID (m : Msg) : String := m.base.MsgID

/-- GetFrom. -/
def Msg.GetFrom (m : Msg) : String := m.base.From

/-- GetTo. -/
def Msg.GetTo (m : Msg) : String := m.base.To

/-- True exactly for a `*MsgMemberlist` value (Go type switch case). -/
def Msg.isMemberlist : Msg → Bool
| .memberlist _ _ => true
| _ => false

/-- True exactly for a `*MsgCallAccepted` value. -/
def Msg.isCallAccepted : Msg → Bool
| .callAccepted _ _ => true
| _ => false

/-- True exactly for a `*MsgCallRejected` value. -/
def Msg.isCallRejected : Msg → Bool
| .callRejected _ _ => true
| _ => false

/-- True exactly for a `*MsgCallTerminated` value. -/
def Msg.isCallTerminated : Msg → Bool
| .callTerminated _ _ => true
| _ => false

/-- Message type constants (`sepp_messages.go`). -/
def MsgTypeCallStart : String := "call_start"

def MsgTypeCallRejected : String := "call_rejected"

def MsgTypeCallAccepted : String := "call_accepted"

def MsgTypeSdpUpdate : String := "sdp_update"

def MsgTypeCallTerminate : String := "call_terminate"

def MsgTypeCallTerminated : String := "call_terminated"

def MsgTypeCallResume : String := "call_resume"

def MsgTypeCallResumed : String := "call_resumed"

def MsgTypeChat : String := "chat"

def MsgTypeSetPresenter : String := "set_presenter"

def MsgTypeDesktopstreaming : String := "desktopstreaming"

def MsgTypeMuteVideo : String := "mute_video"

def MsgTypeSourceUpdate : String := "source_update"

def MsgTypeMemberlist : String := "memberlist"

def MsgTypeRecording : String := "recording"

end Gosepp

namespace Gosepp

/-- Last-occurrence lookup of a key in a JSON object: `encoding/json`
processes keys in order and a later duplicate overwrites an earlier
one, so the last occurrence wins. -/
def lookupField : List (String × JsonVal) → String → Option JsonVal
| [], _ => none
| (k, v) :: rest, key =>
  match lookupField rest key with
  | some v2 => some v2
  | none => if k = key then some v else none

/-- Unmarshal a JSON object field into a Go `string` struct field:
absent or `null` leaves the zero value `""`; a JSON string is taken as
is; any other JSON kind is an unmarshal error. -/
def decStringField : Option JsonVal → Option String
| none => some ""
| some .null => some ""
| some (.str s) => some s
| some _ => none

/-- Unmarshal into a Go `int` field (zero value 0). -/
def decIntField : Option JsonVal → Option Int
| none => some (0 : Int)
| some .null => some (0 : Int)
| some (.num n) => some n
| some _ => none

/-- Unmarshal into a Go `bool` field (zero value `false`). -/
def decBoolField : Option JsonVal → Option Bool
| none => some false
| some .null => some false
| some (.bool b) => some b
| some _ => none

/-- Unmarshal into a Go `*bool` field (absent or `null` gives `nil`). -/
def decOptBoolField : Option JsonVal → Option (Option Bool)
| none => some none
| some .null => some none
| some (.bool b) => some (some b)
| some _ => none

/-- Unmarshal into a Go `*int` field. -/
def decOptIntField : Option JsonVal → Option (Option Int)
| none => some none
| some .null => some none
| some (.num n) => some (some n)
| some _ => none

/-- Unmarshal into a Go `*string` field. -/
def decOptStringField : Option JsonVal → Option (Option String)
| none => some none
| some .null => some none
| some (.str s) => some (some s)
| some _ => none

/-- Unmarshal a JSON array element into a Go `int` (a `null` element
leaves the zero value). -/
def decIntElem : JsonVal → Option Int
| .null => some (0 : Int)
| .num n => some n
| _ => none

/-- Unmarshal a JSON array element into a Go `string`. -/
def decStringElem : JsonVal → Option String
| .null => some ""
| .str s => some s
| _ => none

/-- Unmarshal into a Go slice field: absent or `null` is the nil
slice, an array decodes element-wise, anything else errors. -/
def decListField (f : JsonVal → Option α) : Option JsonVal → Option (List α)
| none => some []
| some .null => some []
| some (.arr xs) => xs.mapM f
| some _ => none

/-- Unmarshal into a nested struct field: absent leaves the zero
value `d`; otherwise the value decodes with `f` (which itself maps
`null` to the zero value, per `encoding/json`). -/
def decStructField (f : JsonVal → Option α) (d : α) : Option JsonVal → Option α
| none => some d
| some v => f v

/-- Unmarshal a JSON value into an `Sdp` struct. -/
def decodeSdp : JsonVal → Option Sdp
| .null => some Sdp.zero
| .obj fs => do
  let t ← decStringField (lookupField fs "type")
  let s ← decStringField (lookupField fs "sdp")
  pure ⟨t, s⟩
| _ => none

/-- First unmarshal pass of the reader loop: `json.Unmarshal(message,
&msgBase)`.  A JSON value decodes into the `MsgBase` struct when it is
an object (fields `type`, `msg_id`, `from`, `to`, each defaulting to
`""`) or `null` (zero value); any other kind is an error. -/
def decodeMsgBase : JsonVal → Option MsgBase
| .null => some MsgBase.zero
| .obj fs => do
  let t ← decStringField (lookupField fs "type")
  let id ← decStringField (lookupField fs "msg_id")
  let fr ← decStringField (lookupField fs "from")
  let t2 ← decStringField (lookupField fs "to")
  pure ⟨t, id, fr, t2⟩
| _ => none

/-- Unmarshal the `data` field of a full message: the whole message
must be an object or `null` (as in `decodeMsgBase`); its `data` field
decodes with the payload decoder `f`, defaulting to the zero value
`d` when absent or `null`. -/
def decDataField (f : JsonVal → Option α) (d : α) : JsonVal → Option α
| .null => some d
| .obj fs => decStructField (fun v => match v with | .null => some d | v => f v) d
    (lookupField fs "data")
| _ => none

/-- Generic second unmarshal pass: a full typed message decodes its
embedded `MsgBase` fields exactly as the first pass does (the same
keys from the same object) plus its `data` payload. -/
def mkDecoder (f : JsonVal → Option δ) (d : δ) (ctor : MsgBase → δ → Msg)
    (j : JsonVal) : Option Msg := do
  let base ← decodeMsgBase j
  let dta ← decDataField f d j
  pure (ctor base dta)

/-- Payload decoder for call_start. -/
def decodeMsgCallStartData : JsonVal → Option MsgCallStartData
| .obj fs => do
  let s ← decStructField decodeSdp Sdp.zero (lookupField fs "sdp")
  let dn ← decStringField (lookupField fs "display_name")
  let p ← decStringField (lookupField fs "platform")
  pure ⟨s, dn, p⟩
| _ => none

/-- Payload decoder for call_rejected. -/
def decodeMsgCallRejectedData : JsonVal → Option MsgCallRejectedData
| .obj fs => do
  let rc ← decIntField (lookupField fs "reject_code")
  pure ⟨rc⟩
| _ => none

/-- Payload decoder for call_accepted. -/
def decodeMsgCallAcceptedData : JsonVal → Option MsgCallAcceptedData
| .obj fs => do
  let cid ← decStringField (lookupField fs "call_id")
  let s ← decStructField decodeSdp Sdp.zero (lookupField fs "sdp")
  pure ⟨cid, s⟩
| _ => none

/-- Payload decoder for sdp_update. -/
def decodeMsgSdpUpdateData : JsonVal → Option MsgSdpUpdateData
| .obj fs => do
  let cid ← decStringField (lookupField fs "call_id")
  let s ← decStructField decodeSdp Sdp.zero (lookupField fs "sdp")
  pure ⟨cid, s⟩
| _ => none

/-- Payload decoder for call_terminate. -/
def decodeMsgCallTerminateData : JsonVal → Option MsgCallTerminateData
| .obj fs => do
  let cid ← decStringField (lookupField fs "call_id")
  let tc ← decIntField (lookupField fs "term_code")
  pure ⟨cid, tc⟩
| _ => none

/-- Payload decoder for call_terminated. -/
def decodeMsgCallTerminatedData : JsonVal → Option MsgCallTerminatedData
| .obj fs => do
  let cid ← decStringField (lookupField fs "call_id")
  let tc ← decIntField (lookupField fs "term_code")
  pure ⟨cid, tc⟩
| _ => none

/-- Payload decoder for call_resume. -/
def decodeMsgCallResumeData : JsonVal → Option MsgCallResumeData
| .obj fs => do
  let s ← decStructField decodeSdp Sdp.zero (lookupField fs "sdp")
  let cid ← decStringField (lookupField fs "call_id")
  pure ⟨s, cid⟩
| _ => none

/-- Payload decoder for call_resumed. -/
def decodeMsgCallResumedData : JsonVal → Option MsgCallResumedData
| .obj fs => do
  let cid ← decStringField (lookupField fs "call_id")
  let s ← decStructField decodeSdp Sdp.zero (lookupField fs "sdp")
  pure ⟨cid, s⟩
| _ => none

/-- Payload decoder for chat. -/
def decodeMsgChatData : JsonVal → Option MsgChatData
| .obj fs => do
  let cid ← decStringField (lookupField fs "call_id")
  let cl ← decStringField (lookupField fs "cid")
  let ct ← decStringField (lookupField fs "content")
  let i ← decStringField (lookupField fs "id")
  let ts ← decStringField (lookupField fs "ts")
  pure ⟨cid, cl, ct, i, ts⟩
| _ => none

/-- Payload decoder for set_presenter. -/
def decodeMsgSetPresenterData : JsonVal → Option MsgSetPresenterData
| .obj fs => do
  let cid ← decStringField (lookupField fs "call_id")
  let o ← decBoolField (lookupField fs "on")
  let cl ← decStringField (lookupField fs "cid")
  pure ⟨cid, o, cl⟩
| _ => none

/-- Payload decoder for desktopstreaming. -/
def decodeMsgDesktopstreamingData : JsonVal → Option MsgDesktopstreamingData
| .obj fs => do
  let cid ← decStringField (lookupField fs "call_id")
  let o ← decBoolField (lookupField fs "on")
  let cl ← decStringField (lookupField fs "cid")
  pure ⟨cid, o, cl⟩
| _ => none

/-- Payload decoder for mute_video. -/
def decodeMsgMuteVideoData : JsonVal → Option MsgMuteVideoData
| .obj fs => do
  let cid ← decStringField (lookupField fs "call_id")
  let o ← decBoolField (lookupField fs "on")
  let cl ← decStringField (lookupField fs "cid")
  pure ⟨cid, o, cl⟩
| _ => none

/-- Array element decoder for a `Dimension`. -/
def decodeDimension : JsonVal → Option Dimension
| .null => some Dimension.zero
| .obj fs => do
  let w ← decIntField (lookupField fs "w")
  let h ← decIntField (lookupField fs "h")
  let x ← decIntField (lookupField fs "x")
  let y ← decIntField (lookupField fs "y")
  pure ⟨w, h, x, y⟩
| _ => none

/-- Payload decoder for source_update. -/
def decodeMsgSourceUpdateData : JsonVal → Option MsgSourceUpdateData
| .obj fs => do
  let cid ← decStringField (lookupField fs "call_id")
  let asrc ← decListField decIntElem (lookupField fs "asrc")
  let vsrc ← decListField decIntElem (lookupField fs "vsrc")
  let bc ← decOptBoolField (lookupField fs "bcast")
  let dims ← decListField decodeDimension (lookupField fs "dims")
  let l ← decIntField (lookupField fs "l")
  let src ← decListField decStringElem (lookupField fs "src")
  let tovl ← decOptBoolField (lookupField fs "tovl")
  let psrc ← decOptIntField (lookupField fs "psrc")
  let dsrc ← decOptIntField (lookupField fs "dsrc")
  pure ⟨cid, asrc, vsrc, bc, dims, l, src, tovl, psrc, dsrc⟩
| _ => none

/-- Payload decoder for recording. -/
def decodeMsgRecordingData : JsonVal → Option MsgRecordingData
| .obj fs => do
  let cid ← decStringField (lookupField fs "call_id")
  let a ← decBoolField (lookupField fs "active")
  let e ← decBoolField (lookupField fs "enabled")
  pure ⟨cid, a, e⟩
| _ => none

/-- Array element decoder for a `Member`. -/
def decodeMember : JsonVal → Option Member
| .null => some Member.zero
| .obj fs => do
  let cl ← decStringField (lookupField fs "cid")
  let p ← decOptStringField (lookupField fs "p")
  pure ⟨cl, p⟩
| _ => none

/-- Array element decoder for a `Media`. -/
def decodeMedia : JsonVal → Option Media
| .null => some Media.zero
| .obj fs => do
  let mid ← decStringField (lookupField fs "mid")
  let pid ← decStringField (lookupField fs "playid")
  pure ⟨mid, pid⟩
| _ => none

/-- Payload decoder for memberlist. -/
def decodeMsgMemberlistData : JsonVal → Option MsgMemberlistData
| .obj fs => do
  let cid ← decStringField (lookupField fs "call_id")
  let cnt ← decIntField (lookupField fs "count")
  let a ← decListField decodeMember (lookupField fs "add")
  let d ← decListField decStringElem (lookupField fs "del")
  let m ← decListField decodeMedia (lookupField fs "media")
  pure ⟨cid, cnt, a, d, m⟩
| _ => none

/-- SeppMsgTypes: the fixed registry mapping a discriminator to the
factory/decoder producing that discriminator's typed message
(`sepp_messages.go`).  `json.Unmarshal(message, interf)` on the
freshly produced value is the composition of the generic `mkDecoder`
with the per-type payload decoder. -/
def SeppMsgTypes (t : String) : Option (JsonVal → Option Msg) :=
  if t = MsgTypeCallStart then
    some (mkDecoder decodeMsgCallStartData MsgCallStartData.zero Msg.callStart)
  else if t = MsgTypeCallRejected then
    some (mkDecoder decodeMsgCallRejectedData MsgCallRejectedData.zero Msg.callRejected)
  else if t = MsgTypeCallAccepted then
    some (mkDecoder decodeMsgCallAcceptedData MsgCallAcceptedData.zero Msg.callAccepted)
  else if t = MsgTypeSdpUpdate then
    some (mkDecoder decodeMsgSdpUpdateData MsgSdpUpdateData.zero Msg.sdpUpdate)
  else if t = MsgTypeCallTerminate then
    some (mkDecoder decodeMsgCallTerminateData MsgCallTerminateData.zero Msg.callTerminate)
  else if t = MsgTypeCallTerminated then
    some (mkDecoder decodeMsgCallTerminatedData MsgCallTerminatedData.zero Msg.callTerminated)
  else if t = MsgTypeCallResume then
    some (mkDecoder decodeMsgCallResumeData MsgCallResumeData.zero Msg.callResume)
  else if t = MsgTypeCallResumed then
    some (mkDecoder decodeMsgCallResumedData MsgCallResumedData.zero Msg.callResumed)
  else if t = MsgTypeChat then
    some (mkDecoder decodeMsgChatData MsgChatData.zero Msg.chat)
  else if t = MsgTypeSetPresenter then
    some (mkDecoder decodeMsgSetPresenterData MsgSetPresenterData.zero Msg.setPresenter)
  else if t = MsgTypeDesktopstreaming then
    some (mkDecoder decodeMsgDesktopstreamingData MsgDesktopstreamingData.zero Msg.desktopstreaming)
  else if t = MsgTypeMuteVideo then
    some (mkDecoder decodeMsgMuteVideoData MsgMuteVideoData.zero Msg.muteVideo)
  else if t = MsgTypeSourceUpdate then
    some (mkDecoder decodeMsgSourceUpdateData MsgSourceUpdateData.zero Msg.sourceUpdate)
  else if t = MsgTypeMemberlist then
    some (mkDecoder decodeMsgMemberlistData MsgMemberlistData.zero Msg.memberlist)
  else if t = MsgTypeRecording then
    some (mkDecoder decodeMsgRecordingData MsgRecordingData.zero Msg.recording)
  else none

end Gosepp

namespace Gosepp

/-- Full two-pass decode of one text payload, exactly the sequence in
the reader loop body (`gosepp.go` start): envelope pass, registry
lookup on the decoded `Type`, typed pass. -/
def decodeFrame (j : JsonVal) : Option Msg := do
  let msgBase ← decodeMsgBase j
  let msgInitFunc ← SeppMsgTypes msgBase.type_
  msgInitFunc j

/-- An abstract websocket connection handle. -/
structure WsConn where
  id : Nat
deriving Repr, DecidableEq

/-- The gorilla/websocket message-type constant for a text frame. -/
def websocketTextMessage : Int := 1

/-- The gorilla/websocket message-type constant for a binary frame. -/
def websocketBinaryMessage : Int := 2

/-- Payload of an inbound frame as far as the decode path can see it:
either text that is not well-formed JSON (the envelope unmarshal
fails) or a parsed JSON document. -/
inductive FramePayload where
| malformed : FramePayload
| wellFormed (j : JsonVal) : FramePayload

/-- One inbound frame as returned by `ReadMessage`: the websocket
message type plus the payload. -/
structure Frame where
  messageType : Int
  payload : FramePayload

/-- One iteration of the reader loop body for a successfully read
frame (`gosepp.go` start, inner loop): only a text frame is parsed;
the result is the value delivered on `rcvCh` (if any) paired with the
warnings logged.  Mirrors the three `continue` branches. -/
def readerStep (f : Frame) : Option Msg × List String :=
  if f.messageType = websocketTextMessage then
    match f.payload with
    | .malformed => (none, ["Failed to unmarshal"])
    | .wellFormed j =>
      match decodeMsgBase j with
      | none => (none, ["Failed to unmarshal"])
      | some msgBase =>
        match SeppMsgTypes msgBase.type_ with
        | none => (none, ["Message-type " ++ msgBase.type_ ++ " not supported."])
        | some msgInitFunc =>
          match msgInitFunc j with
          | none => (none, ["Failed to unmarshal."])
          | some interf => (some interf, [])
  else (none, [])

/-- The reader loop over the frames read within one connection epoch:
the messages delivered on `rcvCh` in order, and the warnings logged. -/
def readerLoop : List Frame → List Msg × List String
| [] => ([], [])
| f :: rest =>
  let (delivered, logs) := readerStep f
  let (ds, ls) := readerLoop rest
  (delivered.toList ++ ds, logs ++ ls)

/-- The mutable client state of a `GoSepp` transport that the modelled
operations touch (`gosepp.go`): the stored connection handle, the
running flag, the bearer token, and the outbound channel contents
(`sendCh`), kept as the ghost list of enqueued wire messages. -/
structure GoSepp where
  wsClient : Option WsConn
  run : Bool
  authToken : String
  sendCh : List Msg
deriving Repr, DecidableEq

/-- The request headers `connect` presents during the handshake. -/
def GoSepp.connectHeaders (rtm : GoSepp) : List (String × String) :=
  if 0 < rtm.authToken.length then
    [("Authorization", "Bearer " ++ rtm.authToken)]
  else []

/-- The connect operation (`gosepp.go` connect): the dial outcome is
the input (the network is external).  On success the new handle is
stored in `wsClient`; the dial error, if any, is returned unchanged. -/
def GoSepp.connect (rtm : GoSepp) (dialResult : Except String WsConn) :
    GoSepp × Option String :=
  match dialResult with
  | .ok c => ({rtm with wsClient := some c}, none)
  | .error err => (rtm, some err)

/-- SendMsg (`gosepp.go`): serialize and, if still running, enqueue on
`sendCh`, else fail with "Not running".  Marshalling of the fixed
message structs of this package cannot fail, so the serialization
error branch is unreachable for the values sent here. -/
def GoSepp.SendMsg (rtm : GoSepp) (msg : Msg) : GoSepp × Option String :=
  if rtm.run then ({rtm with sendCh := rtm.sendCh ++ [msg]}, none)
  else (rtm, some "Not running")

/-- Stop (`gosepp.go`): clears the running flag (channel closing and
task joins are not data-visible here). -/
def GoSepp.Stop (rtm : GoSepp) : GoSepp :=
  {rtm with run := false}

end Gosepp

namespace Gosepp

/-- CallID custom callID type (`call.go`). -/
abbrev CallID := String

/-- The data-relevant state of a `Call` (`call.go`).  The handler
fields, the cancel function, `termCh` and the logger carry no data
the modelled operations branch on; the dispatch-loop goroutine is
tracked by the ghost flag `dispatchRunning` (set exactly where
`go startDispatch(...)` runs), and `termCh` by the event inputs
below. -/
structure Call where
  sepp : GoSepp
  confID : String
  clientID : String
  callID : CallID
  dispatchRunning : Bool
  platform : String
deriving Repr, DecidableEq

/-- Outcome of the `select` on `connectStatusCh` at the top of
`Start`: a received value, a closed channel, or `ctx.Done()`. -/
inductive ConnEvent where
| status (connected : Bool) : ConnEvent
| chanClosed : ConnEvent
| ctxDone : ConnEvent
deriving Repr, DecidableEq

/-- One outcome of the `select` on `rcvCh` inside the wait loop of
`Start`: a received typed message, a closed channel, or
`ctx.Done()`. -/
inductive RcvEvent where
| msg (m : Msg) : RcvEvent
| chanClosed : RcvEvent
| ctxDone : RcvEvent
deriving Repr, DecidableEq

/-- The errors `Start` returns, one constructor per `fmt.Errorf` site
in `call.go` Start, carrying the formatted-in data. -/
inductive StartErr where
| callAlreadyInProgress : StartErr
| failedToConnect : StartErr
| timeoutFailedToConnect : StartErr
| failedToSend (e : String) : StartErr
| failedToReceive : StartErr
| callRejected (rejectCode : Int) : StartErr
| protocolError (msgType : String) : StartErr
| timeout : StartErr
deriving Repr, DecidableEq

/-- Result of `Start`: the `(*CallID, *Sdp, error)` triple with the
two success pointers bundled against the error. -/
inductive StartResult where
| ok (callID : CallID) (answer : Sdp) : StartResult
| err (e : StartErr) : StartResult
deriving Repr, DecidableEq

/-- The wait loop of `Start` (`call.go` lines 200-229) over the
successive `select` outcomes: a memberlist is consumed and ignored;
call_accepted records the identifier, starts the dispatch goroutine
and returns it with the answer; call_rejected and any other type
return errors; a closed channel or `ctx.Done()` return errors.  If
the event list is exhausted the loop is still blocked (`none`). -/
def startWaitLoop (c : Call) : List RcvEvent → Call × Option StartResult
| [] => (c, none)
| ev :: rest =>
  match ev with
  | .chanClosed => (c, some (.err .failedToReceive))
  | .ctxDone => (c, some (.err .timeout))
  | .msg m =>
    match m with
    | .memberlist _ _ => startWaitLoop c rest
    | .callAccepted _ data =>
      ({c with callID := data.CallID, dispatchRunning := true},
       some (.ok data.CallID data.sdp))
    | .callRejected _ data => (c, some (.err (.callRejected data.RejectCode)))
    | _ => (c, some (.err (.protocolError m.GetType)))

/-- Start (`call.go`): re-entry check, wait for the connection
status, send the call_start message, then run the wait loop over the
inbound events. -/
def Call.Start (c : Call) (sdp : Sdp) (displayname : String)
    (connEvent : ConnEvent) (events : List RcvEvent) : Call × Option StartResult :=
  if 0 < c.callID.length then
    (c, some (.err .callAlreadyInProgress))
  else
    match connEvent with
    | .ctxDone => (c, some (.err .timeoutFailedToConnect))
    | .chanClosed => (c, some (.err .failedToConnect))
    | .status connected =>
      if !connected then (c, some (.err .failedToConnect))
      else
        match c.sepp.SendMsg (Msg.callStart
            ⟨MsgTypeCallStart, "", c.clientID, c.confID⟩
            ⟨sdp, displayname, c.platform⟩) with
        | (s1, some e) => ({c with sepp := s1}, some (.err (.failedToSend e)))
        | (s1, none) => startWaitLoop {c with sepp := s1} events

/-- Outcome of the `select` in `Terminate` waiting on `termCh`
against `ctx.Done()`. -/
inductive TermEvent where
| termReceived : TermEvent
| ctxDone : TermEvent
deriving Repr, DecidableEq

/-- The errors of `Terminate` / `UpdateSDP` / `TurnOffVideo`, one
constructor per `fmt.Errorf` site. -/
inductive CallErr where
| noActiveCall : CallErr
| failedToSend (e : String) : CallErr
| timeout : CallErr
deriving Repr, DecidableEq

/-- Terminate (`call.go`): requires a set call identifier, sends the
call_terminate message (TermCode left at its zero value), then blocks
until `termCh` delivers or the context is done. -/
def Call.Terminate (c : Call) (ev : TermEvent) : Call × Option CallErr :=
  if c.callID.length = 0 then
    (c, some .noActiveCall)
  else
    match c.sepp.SendMsg (Msg.callTerminate
        ⟨MsgTypeCallTerminate, "", c.clientID, c.confID⟩
        ⟨c.callID, 0⟩) with
    | (s1, some e) => ({c with sepp := s1}, some (.failedToSend e))
    | (s1, none) =>
      match ev with
      | .ctxDone => ({c with sepp := s1}, some .timeout)
      | .termReceived => ({c with sepp := s1}, none)

/-- UpdateSDP (`call.go`): requires a set call identifier, sends the
sdp_update message, fire-and-forget. -/
def Call.UpdateSDP (c : Call) (sdp : Sdp) : Call × Option CallErr :=
  if c.callID.length = 0 then
    (c, some .noActiveCall)
  else
    match c.sepp.SendMsg (Msg.sdpUpdate
        ⟨MsgTypeSdpUpdate, "", c.clientID, c.confID⟩
        ⟨c.callID, sdp⟩) with
    | (s1, some e) => ({c with sepp := s1}, some (.failedToSend e))
    | (s1, none) => ({c with sepp := s1}, none)

/-- TurnOffVideo (`call.go`): requires a set call identifier, sends
the mute_video message whose `On` payload field is the `off` argument
unchanged and whose `ClientID` is left at its zero value,
fire-and-forget. -/
def Call.TurnOffVideo (c : Call) (off : Bool) : Call × Option CallErr :=
  if c.callID.length = 0 then
    (c, some .noActiveCall)
  else
    match c.sepp.SendMsg (Msg.muteVideo
        ⟨MsgTypeMuteVideo, "", c.clientID, c.confID⟩
        ⟨c.callID, off, ""⟩) with
    | (s1, some e) => ({c with sepp := s1}, some (.failedToSend e))
    | (s1, none) => ({c with sepp := s1}, none)

/-- Close (`call.go`): cancels the coordinator context (stopping the
dispatch loop) and stops the transport.  No termination handshake. -/
def Call.Close (c : Call) : Call :=
  {c with dispatchRunning := false, sepp := c.sepp.Stop}

/-- The observable effects of one iteration of `startDispatch`
(`call.go` lines 121-162) on one consumed message: whether a value
was sent on `termCh` (the non-blocking `select` succeeds exactly when
a receiver is ready, else the `default` branch drops it), and which
registered handler is invoked with which argument. -/
structure DispatchEffects where
  termChSignaled : Bool
  termHandlerInvoked : Bool
  sdpUpdateArg : Option Sdp
  memberlistArg : Option MsgMemberlistData
  sourceUpdateArg : Option MsgSourceUpdateData
deriving Repr, DecidableEq

/-- No effects (the `default:` case of the dispatch type switch). -/
def DispatchEffects.none_ : DispatchEffects := ⟨false, false, none, none, none⟩

/-- One iteration of the dispatch loop body for a consumed message.
`termChReceiverReady` is true when a `Terminate` call is currently
blocked on `termCh`. -/
def startDispatchStep (m : Msg) (termChReceiverReady : Bool) : DispatchEffects :=
  match m with
  | .callTerminated _ _ =>
    {DispatchEffects.none_ with
      termChSignaled := termChReceiverReady, termHandlerInvoked := true}
  | .sdpUpdate _ d => {DispatchEffects.none_ with sdpUpdateArg := some d.sdp}
  | .memberlist _ d => {DispatchEffects.none_ with memberlistArg := some d}
  | .sourceUpdate _ d => {DispatchEffects.none_ with sourceUpdateArg := some d}
  | _ => DispatchEffects.none_

end Gosepp

namespace Gosepp

/-- A Go string has positive length exactly when it is non-empty
(the `len(c.callID) > 0` / `== 0` guards). -/
theorem string_ne_empty_iff_length_pos (s : String) : s ≠ "" ↔ 0 < s.length := by
  constructor
  · intro h
    match s, h with
    | ⟨[]⟩, h => exact absurd rfl h
    | ⟨a :: l⟩, _ => simp [String.length]
  · intro h heq
    subst heq
    simp [String.length] at h

/-- The wait loop of Start consumes and skips any leading block of
memberlist messages. -/
theorem startWaitLoop_skip_memberlist
    (mls : List (MsgBase × MsgMemberlistData)) (c : Call) (evs : List RcvEvent) :
    startWaitLoop c
      (mls.map (fun p => RcvEvent.msg (Msg.memberlist p.1 p.2)) ++ evs) =
    startWaitLoop c evs := by
  induction mls with
  | nil => rfl
  | cons p rest ih => simpa [startWaitLoop] using ih

/-- The wait loop of Start never touches the transport state. -/
theorem startWaitLoop_sepp (evs : List RcvEvent) (c : Call) :
    ((startWaitLoop c evs).1).sepp = c.sepp := by
  induction evs generalizing c with
  | nil => rfl
  | cons ev rest ih =>
    cases ev with
    | chanClosed => rfl
    | ctxDone => rfl
    | msg m => cases m <;> simp [startWaitLoop, ih]

/-- The wait loop of Start either leaves the call identifier alone or
returns success carrying exactly the identifier it recorded, with the
dispatch goroutine started. -/
theorem startWaitLoop_callID (evs : List RcvEvent) (c : Call) :
    (startWaitLoop c evs).1.callID = c.callID ∨
    (∃ id ans, (startWaitLoop c evs).2 = some (.ok id ans) ∧
      (startWaitLoop c evs).1.callID = id ∧
      (startWaitLoop c evs).1.dispatchRunning = true) := by
  induction evs generalizing c with
  | nil => exact Or.inl rfl
  | cons ev rest ih =>
    cases ev with
    | chanClosed => exact Or.inl rfl
    | ctxDone => exact Or.inl rfl
    | msg m =>
      cases m with
      | memberlist b d => simpa [startWaitLoop] using ih c
      | callAccepted b d =>
        exact Or.inr ⟨d.CallID, d.sdp, rfl, rfl, rfl⟩
      | callStart b d => exact Or.inl rfl
      | callRejected b d => exact Or.inl rfl
      | sdpUpdate b d => exact Or.inl rfl
      | callTerminate b d => exact Or.inl rfl
      | callTerminated b d => exact Or.inl rfl
      | callResume b d => exact Or.inl rfl
      | callResumed b d => exact Or.inl rfl
      | chat b d => exact Or.inl rfl
      | setPresenter b d => exact Or.inl rfl
      | desktopstreaming b d => exact Or.inl rfl
      | muteVideo b d => exact Or.inl rfl
      | sourceUpdate b d => exact Or.inl rfl
      | recording b d => exact Or.inl rfl

end Gosepp

namespace Gosepp

/-- Claim C8: for every invocation of the connect operation, on
handshake success the new connection handle is stored as the current
handle and no other field changes; on handshake failure the dial
error is returned and the client state, in particular the previously
stored connection handle, is unchanged. -/
theorem connect_success_stores_handle_failure_pure :
    (∀ (rtm : GoSepp) (conn : WsConn),
      rtm.connect (.ok conn) = ({rtm with wsClient := some conn}, none)) ∧
    (∀ (rtm : GoSepp) (err : String),
      rtm.connect (.error err) = (rtm, some err)) :=
  ⟨fun _ _ => rfl, fun _ _ => rfl⟩

/-- Claim C9: an inbound frame whose websocket message type is not a
text frame is neither delivered nor logged, and the reader loop
continues with the subsequent frames unchanged. -/
theorem reader_ignores_non_text_frames
    (mt : Int) (p : FramePayload) (fs : List Frame)
    (hmt : mt ≠ websocketTextMessage) :
    readerStep ⟨mt, p⟩ = (none, []) ∧
    readerLoop (⟨mt, p⟩ :: fs) = readerLoop fs := by
  constructor
  · simp [readerStep, hmt]
  · simp [readerLoop, readerStep, hmt]

/-- Witness for C9 at a binary frame. -/
theorem reader_ignores_non_text_frames_witness :
    readerStep ⟨websocketBinaryMessage, .malformed⟩ = (none, []) ∧
    readerLoop [⟨websocketBinaryMessage, .malformed⟩] = readerLoop [] :=
  reader_ignores_non_text_frames websocketBinaryMessage .malformed []
    (by decide)

/-- Claim C10: with a set call identifier, TurnOffVideo sends exactly
one mute_video message whose payload `On` field is the `off` argument
unchanged, whose `CallID` is the stored call identifier and whose
`ClientID` is left empty, and returns nil without waiting for any
acknowledgment. -/
theorem turnOffVideo_sends_mute_video
    (c : Call) (off : Bool)
    (hid : c.callID ≠ "") (hrun : c.sepp.run = true) :
    c.TurnOffVideo off =
    ({c with sepp := {c.sepp with sendCh := c.sepp.sendCh ++
        [Msg.muteVideo ⟨MsgTypeMuteVideo, "", c.clientID, c.confID⟩
          ⟨c.callID, off, ""⟩]}}, none) := by
  have hlen : c.callID.length ≠ 0 :=
    Nat.pos_iff_ne_zero.mp ((string_ne_empty_iff_length_pos c.callID).mp hid)
  simp [Call.TurnOffVideo, GoSepp.SendMsg, hlen, hrun]

/-- Witness for C10 at a concrete call. -/
theorem turnOffVideo_sends_mute_video_witness :
    Call.TurnOffVideo ⟨⟨none, true, "", []⟩, "conf", "cli", "C1", true, ""⟩ true =
    (⟨⟨none, true, "",
        [Msg.muteVideo ⟨MsgTypeMuteVideo, "", "cli", "conf"⟩ ⟨"C1", true, ""⟩]⟩,
      "conf", "cli", "C1", true, ""⟩, none) :=
  turnOffVideo_sends_mute_video _ _ (by decide) rfl

end Gosepp

namespace Gosepp

/-- Claim C5: every misuse call returns an error synchronously with
no side effect: Start with a call identifier already set returns an
error with the state (including the outbound queue) unchanged;
Terminate, UpdateSDP and TurnOffVideo with no call identifier set
each return an error with the state unchanged, so nothing is sent on
the wire. -/
theorem misuse_errors_no_side_effect :
    (∀ (c : Call) (sdp : Sdp) (dn : String) (ce : ConnEvent)
        (evs : List RcvEvent), c.callID ≠ "" →
      c.Start sdp dn ce evs = (c, some (.err .callAlreadyInProgress))) ∧
    (∀ (c : Call) (ev : TermEvent), c.callID = "" →
      c.Terminate ev = (c, some .noActiveCall)) ∧
    (∀ (c : Call) (sdp : Sdp), c.callID = "" →
      c.UpdateSDP sdp = (c, some .noActiveCall)) ∧
    (∀ (c : Call) (off : Bool), c.callID = "" →
      c.TurnOffVideo off = (c, some .noActiveCall)) := by
  refine ⟨?_, ?_, ?_, ?_⟩
  · intro c sdp dn ce evs hid
    have hlen : 0 < c.callID.length :=
      (string_ne_empty_iff_length_pos c.callID).mp hid
    simp [Call.Start, hlen]
  · intro c ev hid
    simp [Call.Terminate, hid]
  · intro c sdp hid
    simp [Call.UpdateSDP, hid]
  · intro c off hid
    simp [Call.TurnOffVideo, hid]

/-- Witness for C5: a call with identifier "C1" refuses re-entrant
Start; a call with no identifier refuses Terminate, UpdateSDP and
TurnOffVideo, all with unchanged state. -/
theorem misuse_errors_no_side_effect_witness :
    Call.Start ⟨⟨none, true, "", []⟩, "cf", "cl", "C1", true, ""⟩
        Sdp.zero "d" (.status true) [] =
      (⟨⟨none, true, "", []⟩, "cf", "cl", "C1", true, ""⟩,
        some (.err .callAlreadyInProgress)) ∧
    Call.Terminate ⟨⟨none, true, "", []⟩, "cf", "cl", "", false, ""⟩
        .termReceived =
      (⟨⟨none, true, "", []⟩, "cf", "cl", "", false, ""⟩,
        some .noActiveCall) ∧
    Call.UpdateSDP ⟨⟨none, true, "", []⟩, "cf", "cl", "", false, ""⟩
        Sdp.zero =
      (⟨⟨none, true, "", []⟩, "cf", "cl", "", false, ""⟩,
        some .noActiveCall) ∧
    Call.TurnOffVideo ⟨⟨none, true, "", []⟩, "cf", "cl", "", false, ""⟩
        false =
      (⟨⟨none, true, "", []⟩, "cf", "cl", "", false, ""⟩,
        some .noActiveCall) :=
  ⟨misuse_errors_no_side_effect.1 _ _ _ _ _ (by decide),
   misuse_errors_no_side_effect.2.1 _ _ rfl,
   misuse_errors_no_side_effect.2.2.1 _ _ rfl,
   misuse_errors_no_side_effect.2.2.2 _ _ rfl⟩

/-- Claim C4: with a set call identifier, Terminate sends the
call_terminate message and then returns nil exactly when the internal
termination channel delivers a value, and a timeout error when the
caller context is done first; and one dispatch-loop iteration signals
the termination channel exactly when the consumed message is a
call_terminated notification and a receiver is ready (the
non-blocking best-effort send drops the signal otherwise). -/
theorem terminate_blocks_on_term_channel :
    (∀ (c : Call), c.callID ≠ "" → c.sepp.run = true →
      c.Terminate .termReceived =
        ({c with sepp := {c.sepp with sendCh := c.sepp.sendCh ++
            [Msg.callTerminate ⟨MsgTypeCallTerminate, "", c.clientID, c.confID⟩
              ⟨c.callID, 0⟩]}}, none) ∧
      c.Terminate .ctxDone =
        ({c with sepp := {c.sepp with sendCh := c.sepp.sendCh ++
            [Msg.callTerminate ⟨MsgTypeCallTerminate, "", c.clientID, c.confID⟩
              ⟨c.callID, 0⟩]}}, some .timeout)) ∧
    (∀ (m : Msg) (receiverReady : Bool),
      (startDispatchStep m receiverReady).termChSignaled =
        (m.isCallTerminated && receiverReady)) := by
  constructor
  · intro c hid hrun
    have hlen : c.callID.length ≠ 0 :=
      Nat.pos_iff_ne_zero.mp ((string_ne_empty_iff_length_pos c.callID).mp hid)
    constructor
    · simp [Call.Terminate, GoSepp.SendMsg, hlen, hrun]
    · simp [Call.Terminate, GoSepp.SendMsg, hlen, hrun]
  · intro m receiverReady
    cases m <;> simp [startDispatchStep, Msg.isCallTerminated, DispatchEffects.none_]

/-- Witness for C4 at a concrete call and a call_terminated
message. -/
theorem terminate_blocks_on_term_channel_witness :
    Call.Terminate ⟨⟨none, true, "", []⟩, "cf", "cl", "C1", true, ""⟩
        .termReceived =
      (⟨⟨none, true, "",
          [Msg.callTerminate ⟨MsgTypeCallTerminate, "", "cl", "cf"⟩ ⟨"C1", 0⟩]⟩,
        "cf", "cl", "C1", true, ""⟩, none) ∧
    (startDispatchStep
        (Msg.callTerminated MsgBase.zero MsgCallTerminatedData.zero) true
      ).termChSignaled = true :=
  ⟨(terminate_blocks_on_term_channel.1 _ (by decide) rfl).1,
   terminate_blocks_on_term_channel.2 _ true⟩

end Gosepp

namespace Gosepp

/-- Claim C1: for every inbound sequence of zero or more memberlist
notifications followed by a call_accepted message, Start (no call
identifier set, after a true connection status) consumes and ignores
every memberlist notification, records the accept's call_id as the
call identifier, starts the dispatch loop, and returns that call
identifier together with the answer SDP of the accept message, with a
nil error; the only wire side effect is the call_start message. -/
theorem start_ignores_memberlists_then_accepts
    (c : Call) (sdp : Sdp) (displayname : String)
    (mls : List (MsgBase × MsgMemberlistData))
    (accBase : MsgBase) (accData : MsgCallAcceptedData)
    (rest : List RcvEvent)
    (hid : c.callID = "") (hrun : c.sepp.run = true) :
    c.Start sdp displayname (.status true)
      (mls.map (fun p => RcvEvent.msg (Msg.memberlist p.1 p.2)) ++
        RcvEvent.msg (Msg.callAccepted accBase accData) :: rest) =
    ({c with
        sepp := {c.sepp with sendCh := c.sepp.sendCh ++
          [Msg.callStart ⟨MsgTypeCallStart, "", c.clientID, c.confID⟩
            ⟨sdp, displayname, c.platform⟩]},
        callID := accData.CallID,
        dispatchRunning := true},
      some (.ok accData.CallID accData.sdp)) := by
  have hlen : c.callID.length = 0 := by rw [hid]; rfl
  simp [Call.Start, hlen, GoSepp.SendMsg, hrun,
    startWaitLoop_skip_memberlist, startWaitLoop]

/-- Witness for C1: one memberlist then an accept carrying call_id
"C1" and an answer SDP. -/
theorem start_ignores_memberlists_then_accepts_witness :
    Call.Start ⟨⟨none, true, "", []⟩, "B", "A", "", false, "pf"⟩
      ⟨"offer", "O"⟩ "dn" (.status true)
      [RcvEvent.msg (Msg.memberlist MsgBase.zero MsgMemberlistData.zero),
       RcvEvent.msg (Msg.callAccepted MsgBase.zero ⟨"C1", ⟨"answer", "X"⟩⟩)] =
    (⟨⟨none, true, "",
        [Msg.callStart ⟨MsgTypeCallStart, "", "A", "B"⟩
          ⟨⟨"offer", "O"⟩, "dn", "pf"⟩]⟩,
      "B", "A", "C1", true, "pf"⟩,
      some (.ok "C1" ⟨"answer", "X"⟩)) :=
  start_ignores_memberlists_then_accepts
    ⟨⟨none, true, "", []⟩, "B", "A", "", false, "pf"⟩ ⟨"offer", "O"⟩ "dn"
    [(MsgBase.zero, MsgMemberlistData.zero)] MsgBase.zero
    ⟨"C1", ⟨"answer", "X"⟩⟩ [] rfl rfl

/-- Claim C2: if during the wait of Start the first non-memberlist
message is call_rejected, Start returns an error carrying that
message's reject code; if it is any type other than call_accepted or
call_rejected, Start returns a protocol error carrying the offending
message's type.  In both cases the returned state keeps the call
identifier unset and the dispatch flag untouched; the only wire side
effect is the call_start message. -/
theorem start_reject_and_protocol_errors :
    (∀ (c : Call) (sdp : Sdp) (dn : String)
        (mls : List (MsgBase × MsgMemberlistData))
        (rejBase : MsgBase) (rejData : MsgCallRejectedData)
        (rest : List RcvEvent), c.callID = "" → c.sepp.run = true →
      c.Start sdp dn (.status true)
        (mls.map (fun p => RcvEvent.msg (Msg.memberlist p.1 p.2)) ++
          RcvEvent.msg (Msg.callRejected rejBase rejData) :: rest) =
      ({c with sepp := {c.sepp with sendCh := c.sepp.sendCh ++
          [Msg.callStart ⟨MsgTypeCallStart, "", c.clientID, c.confID⟩
            ⟨sdp, dn, c.platform⟩]}},
        some (.err (.callRejected rejData.RejectCode)))) ∧
    (∀ (c : Call) (sdp : Sdp) (dn : String)
        (mls : List (MsgBase × MsgMemberlistData)) (m : Msg)
        (rest : List RcvEvent), c.callID = "" → c.sepp.run = true →
      m.isMemberlist = false → m.isCallAccepted = false →
      m.isCallRejected = false →
      c.Start sdp dn (.status true)
        (mls.map (fun p => RcvEvent.msg (Msg.memberlist p.1 p.2)) ++
          RcvEvent.msg m :: rest) =
      ({c with sepp := {c.sepp with sendCh := c.sepp.sendCh ++
          [Msg.callStart ⟨MsgTypeCallStart, "", c.clientID, c.confID⟩
            ⟨sdp, dn, c.platform⟩]}},
        some (.err (.protocolError m.GetType)))) := by
  constructor
  · intro c sdp dn mls rejBase rejData rest hid hrun
    have hlen : c.callID.length = 0 := by rw [hid]; rfl
    simp [Call.Start, hlen, GoSepp.SendMsg, hrun,
      startWaitLoop_skip_memberlist, startWaitLoop]
  · intro c sdp dn mls m rest hid hrun hml hacc hrej
    have hlen : c.callID.length = 0 := by rw [hid]; rfl
    simp [Call.Start, hlen, GoSepp.SendMsg, hrun,
      startWaitLoop_skip_memberlist]
    cases m <;>
      simp_all [startWaitLoop, Msg.isMemberlist, Msg.isCallAccepted,
        Msg.isCallRejected]

/-- Witness for C2: a reject with code 4 after one memberlist, and a
protocol violation by a chat message. -/
theorem start_reject_and_protocol_errors_witness :
    Call.Start ⟨⟨none, true, "", []⟩, "B", "A", "", false, ""⟩
      Sdp.zero "dn" (.status true)
      [RcvEvent.msg (Msg.memberlist MsgBase.zero MsgMemberlistData.zero),
       RcvEvent.msg (Msg.callRejected MsgBase.zero ⟨4⟩)] =
    (⟨⟨none, true, "",
        [Msg.callStart ⟨MsgTypeCallStart, "", "A", "B"⟩
          ⟨Sdp.zero, "dn", ""⟩]⟩, "B", "A", "", false, ""⟩,
      some (.err (.callRejected 4))) ∧
    Call.Start ⟨⟨none, true, "", []⟩, "B", "A", "", false, ""⟩
      Sdp.zero "dn" (.status true)
      [RcvEvent.msg (Msg.chat ⟨"chat", "", "", ""⟩ MsgChatData.zero)] =
    (⟨⟨none, true, "",
        [Msg.callStart ⟨MsgTypeCallStart, "", "A", "B"⟩
          ⟨Sdp.zero, "dn", ""⟩]⟩, "B", "A", "", false, ""⟩,
      some (.err (.protocolError "chat"))) :=
  ⟨start_reject_and_protocol_errors.1
      ⟨⟨none, true, "", []⟩, "B", "A", "", false, ""⟩ Sdp.zero "dn"
      [(MsgBase.zero, MsgMemberlistData.zero)] MsgBase.zero ⟨4⟩ [] rfl rfl,
   start_reject_and_protocol_errors.2
      ⟨⟨none, true, "", []⟩, "B", "A", "", false, ""⟩ Sdp.zero "dn"
      [] (Msg.chat ⟨"chat", "", "", ""⟩ MsgChatData.zero) [] rfl rfl
      rfl rfl rfl⟩

end Gosepp

namespace Gosepp

/-- Claim C6: the call_start message Start sends carries the offer
SDP, the display name and the platform tag in its payload (and is the
only message Start enqueues), whatever the subsequent inbound
events. -/
theorem start_sends_offer_displayname_platform
    (c : Call) (sdp : Sdp) (displayname : String) (evs : List RcvEvent)
    (hid : c.callID = "") (hrun : c.sepp.run = true) :
    (c.Start sdp displayname (.status true) evs).1.sepp.sendCh =
      c.sepp.sendCh ++
        [Msg.callStart ⟨MsgTypeCallStart, "", c.clientID, c.confID⟩
          ⟨sdp, displayname, c.platform⟩] := by
  have hlen : c.callID.length = 0 := by rw [hid]; rfl
  have hsend : c.sepp.SendMsg (Msg.callStart
      ⟨MsgTypeCallStart, "", c.clientID, c.confID⟩
      ⟨sdp, displayname, c.platform⟩) =
      ({c.sepp with sendCh := c.sepp.sendCh ++
        [Msg.callStart ⟨MsgTypeCallStart, "", c.clientID, c.confID⟩
          ⟨sdp, displayname, c.platform⟩]}, none) := by
    simp [GoSepp.SendMsg, hrun]
  have hstart : c.Start sdp displayname (.status true) evs =
      startWaitLoop {c with sepp := {c.sepp with sendCh := c.sepp.sendCh ++
        [Msg.callStart ⟨MsgTypeCallStart, "", c.clientID, c.confID⟩
          ⟨sdp, displayname, c.platform⟩]}} evs := by
    simp [Call.Start, hlen, hsend]
  rw [hstart, startWaitLoop_sepp]

/-- Witness for C6. -/
theorem start_sends_offer_displayname_platform_witness :
    (Call.Start ⟨⟨none, true, "", []⟩, "B", "A", "", false, "web"⟩
      ⟨"offer", "O"⟩ "Alice" (.status true) []).1.sepp.sendCh =
    [Msg.callStart ⟨MsgTypeCallStart, "", "A", "B"⟩
      ⟨⟨"offer", "O"⟩, "Alice", "web"⟩] :=
  start_sends_offer_displayname_platform
    ⟨⟨none, true, "", []⟩, "B", "A", "", false, "web"⟩
    ⟨"offer", "O"⟩ "Alice" [] rfl rfl

/-- Claim C7: the call identifier is set at most once per Call
lifetime: Terminate, UpdateSDP, TurnOffVideo and Close never modify
it; Start refuses re-entry when it is already set; and Start either
leaves it unchanged or (starting from unset) records exactly the
accepted identifier it returns, starting the dispatch loop.  The
dispatch loop itself receives only copies of the handler fields and
the channels, so it cannot touch the identifier. -/
theorem callID_set_at_most_once :
    (∀ (c : Call) (ev : TermEvent), (c.Terminate ev).1.callID = c.callID) ∧
    (∀ (c : Call) (sdp : Sdp), (c.UpdateSDP sdp).1.callID = c.callID) ∧
    (∀ (c : Call) (off : Bool), (c.TurnOffVideo off).1.callID = c.callID) ∧
    (∀ (c : Call), c.Close.callID = c.callID) ∧
    (∀ (c : Call) (sdp : Sdp) (dn : String) (ce : ConnEvent)
        (evs : List RcvEvent), c.callID ≠ "" →
      c.Start sdp dn ce evs = (c, some (.err .callAlreadyInProgress))) ∧
    (∀ (c : Call) (sdp : Sdp) (dn : String) (ce : ConnEvent)
        (evs : List RcvEvent),
      (c.Start sdp dn ce evs).1.callID = c.callID ∨
      (c.callID = "" ∧ ∃ id ans,
        (c.Start sdp dn ce evs).2 = some (.ok id ans) ∧
        (c.Start sdp dn ce evs).1.callID = id ∧
        (c.Start sdp dn ce evs).1.dispatchRunning = true)) := by
  refine ⟨?_, ?_, ?_, ?_, ?_, ?_⟩
  · intro c ev
    by_cases h : c.callID.length = 0
    · simp [Call.Terminate, h]
    · cases hr : c.sepp.run <;> cases ev <;>
        simp [Call.Terminate, h, GoSepp.SendMsg, hr]
  · intro c sdp
    by_cases h : c.callID.length = 0
    · simp [Call.UpdateSDP, h]
    · cases hr : c.sepp.run <;>
        simp [Call.UpdateSDP, h, GoSepp.SendMsg, hr]
  · intro c off
    by_cases h : c.callID.length = 0
    · simp [Call.TurnOffVideo, h]
    · cases hr : c.sepp.run <;>
        simp [Call.TurnOffVideo, h, GoSepp.SendMsg, hr]
  · intro c
    simp [Call.Close]
  · intro c sdp dn ce evs hid
    have hlen : 0 < c.callID.length :=
      (string_ne_empty_iff_length_pos c.callID).mp hid
    simp [Call.Start, hlen]
  · intro c sdp dn ce evs
    by_cases hid : c.callID = ""
    · have hlen : c.callID.length = 0 := by rw [hid]; rfl
      cases ce with
      | ctxDone => left; simp [Call.Start, hlen]
      | chanClosed => left; simp [Call.Start, hlen]
      | status connected =>
        cases connected with
        | false => left; simp [Call.Start, hlen]
        | true =>
          cases hr : c.sepp.run with
          | false => left; simp [Call.Start, hlen, GoSepp.SendMsg, hr]
          | true =>
            have hsend : c.sepp.SendMsg (Msg.callStart
                ⟨MsgTypeCallStart, "", c.clientID, c.confID⟩
                ⟨sdp, dn, c.platform⟩) =
                ({c.sepp with sendCh := c.sepp.sendCh ++
                  [Msg.callStart ⟨MsgTypeCallStart, "", c.clientID, c.confID⟩
                    ⟨sdp, dn, c.platform⟩]}, none) := by
              simp [GoSepp.SendMsg, hr]
            have hstart : c.Start sdp dn (.status true) evs =
                startWaitLoop {c with sepp := {c.sepp with
                  sendCh := c.sepp.sendCh ++
                    [Msg.callStart ⟨MsgTypeCallStart, "", c.clientID, c.confID⟩
                      ⟨sdp, dn, c.platform⟩]}} evs := by
              simp [Call.Start, hlen, hsend]
            have hloop := startWaitLoop_callID evs
              {c with sepp := {c.sepp with sendCh := c.sepp.sendCh ++
                [Msg.callStart ⟨MsgTypeCallStart, "", c.clientID, c.confID⟩
                  ⟨sdp, dn, c.platform⟩]}}
            rcases hloop with h | ⟨id, ans, h1, h2, h3⟩
            · left
              rw [hstart]
              exact h
            · right
              exact ⟨hid, id, ans, by rw [hstart]; exact h1,
                by rw [hstart]; exact h2, by rw [hstart]; exact h3⟩
    · have hlen : 0 < c.callID.length :=
        (string_ne_empty_iff_length_pos c.callID).mp hid
      left
      simp [Call.Start, hlen]

/-- Witness for C7: the re-entry and accept-path parts at concrete
calls. -/
theorem callID_set_at_most_once_witness :
    Call.Start ⟨⟨none, true, "", []⟩, "B", "A", "C9", true, ""⟩
        Sdp.zero "d" (.status true) [] =
      (⟨⟨none, true, "", []⟩, "B", "A", "C9", true, ""⟩,
        some (.err .callAlreadyInProgress)) ∧
    (Call.Terminate ⟨⟨none, true, "", []⟩, "B", "A", "C9", true, ""⟩
        .termReceived).1.callID = "C9" :=
  ⟨callID_set_at_most_once.2.2.2.2.1 _ _ _ _ _ (by decide),
   callID_set_at_most_once.1 _ _⟩

end Gosepp

namespace Gosepp

/-- A typed decoder built by `mkDecoder` decodes its embedded
envelope fields exactly as the envelope pass does. -/
theorem mkDecoder_base {δ : Type} (f : JsonVal → Option δ) (d : δ)
    (ctor : MsgBase → δ → Msg) (j : JsonVal) (m : Msg)
    (hctor : ∀ b x, (ctor b x).base = b)
    (hm : mkDecoder f d ctor j = some m) :
    decodeMsgBase j = some m.base := by
  cases hb : decodeMsgBase j with
  | none => simp [mkDecoder, hb] at hm
  | some b =>
    cases hd : decDataField f d j with
    | none => simp [mkDecoder, hb, hd] at hm
    | some dt =>
      simp [mkDecoder, hb, hd] at hm
      subst hm
      rw [hctor]

/-- Every decoder in the registry decodes its embedded envelope
fields exactly as the envelope pass does. -/
theorem seppMsgTypes_base (t : String) (dec : JsonVal → Option Msg)
    (hdec : SeppMsgTypes t = some dec) (j : JsonVal) (m : Msg)
    (hm : dec j = some m) : decodeMsgBase j = some m.base := by
  rw [SeppMsgTypes] at hdec
  by_cases h1 : t = MsgTypeCallStart
  · rw [if_pos h1] at hdec
    injection hdec with h
    subst h
    refine mkDecoder_base _ _ _ j m ?_ hm
    intro b x
    rfl
  rw [if_neg h1] at hdec
  by_cases h2 : t = MsgTypeCallRejected
  · rw [if_pos h2] at hdec
    injection hdec with h
    subst h
    refine mkDecoder_base _ _ _ j m ?_ hm
    intro b x
    rfl
  rw [if_neg h2] at hdec
  by_cases h3 : t = MsgTypeCallAccepted
  · rw [if_pos h3] at hdec
    injection hdec with h
    subst h
    refine mkDecoder_base _ _ _ j m ?_ hm
    intro b x
    rfl
  rw [if_neg h3] at hdec
  by_cases h4 : t = MsgTypeSdpUpdate
  · rw [if_pos h4] at hdec
    injection hdec with h
    subst h
    refine mkDecoder_base _ _ _ j m ?_ hm
    intro b x
    rfl
  rw [if_neg h4] at hdec
  by_cases h5 : t = MsgTypeCallTerminate
  · rw [if_pos h5] at hdec
    injection hdec with h
    subst h
    refine mkDecoder_base _ _ _ j m ?_ hm
    intro b x
    rfl
  rw [if_neg h5] at hdec
  by_cases h6 : t = MsgTypeCallTerminated
  · rw [if_pos h6] at hdec
    injection hdec with h
    subst h
    refine mkDecoder_base _ _ _ j m ?_ hm
    intro b x
    rfl
  rw [if_neg h6] at hdec
  by_cases h7 : t = MsgTypeCallResume
  · rw [if_pos h7] at hdec
    injection hdec with h
    subst h
    refine mkDecoder_base _ _ _ j m ?_ hm
    intro b x
    rfl
  rw [if_neg h7] at hdec
  by_cases h8 : t = MsgTypeCallResumed
  · rw [if_pos h8] at hdec
    injection hdec with h
    subst h
    refine mkDecoder_base _ _ _ j m ?_ hm
    intro b x
    rfl
  rw [if_neg h8] at hdec
  by_cases h9 : t = MsgTypeChat
  · rw [if_pos h9] at hdec
    injection hdec with h
    subst h
    refine mkDecoder_base _ _ _ j m ?_ hm
    intro b x
    rfl
  rw [if_neg h9] at hdec
  by_cases h10 : t = MsgTypeSetPresenter
  · rw [if_pos h10] at hdec
    injection hdec with h
    subst h
    refine mkDecoder_base _ _ _ j m ?_ hm
    intro b x
    rfl
  rw [if_neg h10] at hdec
  by_cases h11 : t = MsgTypeDesktopstreaming
  · rw [if_pos h11] at hdec
    injection hdec with h
    subst h
    refine mkDecoder_base _ _ _ j m ?_ hm
    intro b x
    rfl
  rw [if_neg h11] at hdec
  by_cases h12 : t = MsgTypeMuteVideo
  · rw [if_pos h12] at hdec
    injection hdec with h
    subst h
    refine mkDecoder_base _ _ _ j m ?_ hm
    intro b x
    rfl
  rw [if_neg h12] at hdec
  by_cases h13 : t = MsgTypeSourceUpdate
  · rw [if_pos h13] at hdec
    injection hdec with h
    subst h
    refine mkDecoder_base _ _ _ j m ?_ hm
    intro b x
    rfl
  rw [if_neg h13] at hdec
  by_cases h14 : t = MsgTypeMemberlist
  · rw [if_pos h14] at hdec
    injection hdec with h
    subst h
    refine mkDecoder_base _ _ _ j m ?_ hm
    intro b x
    rfl
  rw [if_neg h14] at hdec
  by_cases h15 : t = MsgTypeRecording
  · rw [if_pos h15] at hdec
    injection hdec with h
    subst h
    refine mkDecoder_base _ _ _ j m ?_ hm
    intro b x
    rfl
  rw [if_neg h15] at hdec
  exact Option.noConfusion hdec
/-- Claim C3: for every inbound text frame, when the envelope
decodes, its type discriminator is registered and the full payload
decodes, exactly one typed value (the decoded message) is delivered
on the inbound channel and the loop continues, the delivered value
carrying the wire envelope's msg_id, from and to unchanged; when any
of the three steps fails (including malformed JSON) nothing is
delivered and the loop continues with the next frame. -/
theorem reader_delivers_decoded_frames :
    (∀ (j : JsonVal) (fs : List Frame),
      (readerLoop (⟨websocketTextMessage, .wellFormed j⟩ :: fs)).1 =
        (decodeFrame j).toList ++ (readerLoop fs).1) ∧
    (∀ (j : JsonVal) (base : MsgBase) (dec : JsonVal → Option Msg) (m : Msg),
      decodeMsgBase j = some base → SeppMsgTypes base.type_ = some dec →
      dec j = some m →
      decodeFrame j = some m ∧ m.GetMsgID = base.MsgID ∧
        m.GetFrom = base.From ∧ m.GetTo = base.To) ∧
    (∀ (fs : List Frame),
      (readerLoop (⟨websocketTextMessage, .malformed⟩ :: fs)).1 =
        (readerLoop fs).1) := by
  refine ⟨?_, ?_, ?_⟩
  · intro j fs
    cases hb : decodeMsgBase j with
    | none => simp [readerLoop, readerStep, decodeFrame, hb]
    | some base =>
      cases hdec : SeppMsgTypes base.type_ with
      | none => simp [readerLoop, readerStep, decodeFrame, hb, hdec]
      | some dec =>
        cases hm : dec j with
        | none => simp [readerLoop, readerStep, decodeFrame, hb, hdec, hm]
        | some m => simp [readerLoop, readerStep, decodeFrame, hb, hdec, hm]
  · intro j base dec m hb hdec hm
    have hbase := seppMsgTypes_base base.type_ dec hdec j m hm
    rw [hb] at hbase
    have hbm : base = m.base := by injection hbase
    refine ⟨?_, ?_, ?_, ?_⟩
    · simp [decodeFrame, hb, hdec, hm]
    · rw [Msg.GetMsgID, ← hbm]
    · rw [Msg.GetFrom, ← hbm]
    · rw [Msg.GetTo, ← hbm]
  · intro fs
    simp [readerLoop, readerStep]

/-- Witness for C3 at a concrete memberlist frame: envelope fields
type "memberlist", msg_id "7", from "A", to "B", no data field. -/
theorem reader_delivers_decoded_frames_witness :
    decodeFrame (.obj [("type", .str "memberlist"), ("msg_id", .str "7"),
        ("from", .str "A"), ("to", .str "B")]) =
      some (Msg.memberlist ⟨"memberlist", "7", "A", "B"⟩
        MsgMemberlistData.zero) ∧
    (Msg.memberlist ⟨"memberlist", "7", "A", "B"⟩
        MsgMemberlistData.zero).GetMsgID = "7" ∧
    (Msg.memberlist ⟨"memberlist", "7", "A", "B"⟩
        MsgMemberlistData.zero).GetFrom = "A" ∧
    (Msg.memberlist ⟨"memberlist", "7", "A", "B"⟩
        MsgMemberlistData.zero).GetTo = "B" :=
  reader_delivers_decoded_frames.2.1
    (.obj [("type", .str "memberlist"), ("msg_id", .str "7"),
      ("from", .str "A"), ("to", .str "B")])
    ⟨"memberlist", "7", "A", "B"⟩
    (mkDecoder decodeMsgMemberlistData MsgMemberlistData.zero Msg.memberlist)
    (Msg.memberlist ⟨"memberlist", "7", "A", "B"⟩ MsgMemberlistData.zero)
    (by rfl) (by rfl) (by rfl)

end Gosepp
